import Mathlib

/-!
Verification of the mce pipeline layer: a shallow embedding of
`mce/pipeline.py` and `mce/bus.py`, with theorems about the tiling
geometry calculation, ghost-pad bookkeeping, dynamic source linking,
lifecycle state setting and the bus message callback.

Framework calls (GStreamer) are modelled by small environment records
that fix the outcome of each fallible framework operation performed
during one call; the Python functions are translated statement by
statement over those environments.
-/

namespace Mce

/-- Executable ceiling square root: the least `k` with `n ≤ k * k`.  This
embeds `int(math.ceil(math.sqrt(num_sources)))` from
`calc_rows_and_columns`, with `math.sqrt` modelled as the exact real
square root.  The fuel argument is `n`, which always suffices because the
answer is at most `n`. -/
def ceilSqrtAux (n : Nat) : Nat → Nat → Nat
  | 0, k => k
  | fuel + 1, k => if n ≤ k * k then k else ceilSqrtAux n fuel (k + 1)

/-- Ceiling of the square root of `n`. -/
def ceilSqrt (n : Nat) : Nat := ceilSqrtAux n n 0

/-- Embedding of `calc_rows_and_columns` from `mce/pipeline.py`:
`if not num_sources: return 1; return int(math.ceil(math.sqrt(num_sources)))`. -/
def calc_rows_and_columns (num_sources : Nat) : Nat :=
  if num_sources = 0 then 1 else ceilSqrt num_sources

/-- Embedding of `calc_in_scale`: Python floor division raises
`ZeroDivisionError` on a zero divisor, hence the `Option`. -/
def calc_in_scale (out_scale : Nat × Nat) (rows_and_columns : Nat) :
    Option (Nat × Nat) :=
  if rows_and_columns = 0 then none
  else some (out_scale.1 / rows_and_columns, out_scale.2 / rows_and_columns)

/-- Property values appearing in element descriptions. -/
inductive PropVal
  | int (value : Int)
  | bool (value : Bool)
  | str (value : String)
deriving DecidableEq

/-- Embedding of the `ElementDescription` named tuple: element type tag,
unique name, and an optional property map (`ElementProperties`). -/
structure ElementDescription where
  type : String
  name : String
  properties : Option (List (String × PropVal))
deriving DecidableEq

/-- Embedding of `mce.MODEL_BASENAME_TEMPLATE.format(batch_size=..., precision=...)`
with template `"resnet10.caffemodel_b{batch_size}_{precision}.engine"`. -/
def model_engine_file (batch_size : Nat) (precision : String) : String :=
  "resnet10.caffemodel_b" ++ toString batch_size ++ "_" ++ precision ++ ".engine"

/-- Embedding of `make_inference_description`.  The entries are `Option`
because the `nvegltransform` entry is the Python expression
`ElementDescription(...) if mce.is_jetson() and sink == "nveglglessink" else None`;
the whole result is `Option` because `calc_in_scale` can fail.  The
parameters `jetson` and `xavier` stand for the platform probes
`mce.is_jetson()` and `mce.is_xavier()`. -/
def make_inference_description (pie_config : String) (sink : String)
    (num_sources : Nat) (out_scale : Nat × Nat) (jetson xavier : Bool) :
    Option (List (Option ElementDescription)) :=
  let rows_and_columns := calc_rows_and_columns num_sources
  match calc_in_scale out_scale rows_and_columns with
  | none => none
  | some in_scale => some
      [ some { type := "nvstreammux", name := "stream-muxer",
               properties := some [
                 ("width", PropVal.int in_scale.1),
                 ("height", PropVal.int in_scale.2),
                 ("enable-padding", PropVal.int 1),
                 ("batch-size", PropVal.int num_sources),
                 ("batched-push-timeout", PropVal.int 33367),
                 ("live-source", PropVal.bool true)] },
        some { type := "nvinfer", name := "pie",
               properties := some [
                 ("config-file-path", PropVal.str pie_config),
                 ("model-engine-file", PropVal.str
                   (model_engine_file num_sources (if xavier then "int8" else "fp16"))),
                 ("batch-size", PropVal.int num_sources)] },
        some { type := "nvvideoconvert", name := "converter", properties := none },
        some { type := "nvmultistreamtiler", name := "tiler",
               properties := some [
                 ("rows", PropVal.int rows_and_columns),
                 ("columns", PropVal.int rows_and_columns),
                 ("width", PropVal.int out_scale.1),
                 ("height", PropVal.int out_scale.2)] },
        some { type := "nvdsosd", name := "osd", properties := none },
        (if jetson && sink == "nveglglessink"
         then some { type := "nvegltransform", name := "transform", properties := none }
         else none),
        some { type := sink, name := "sink",
               properties := some [
                 ("sync", PropVal.bool false),
                 ("qos", PropVal.bool false)] } ]

/-- Name lookup over a description, mirroring `make_elements` (falsy
entries silently skipped) followed by `Gst.Bin.get_by_name` (first match
by element name). -/
def findElement : List (Option ElementDescription) → String → Option ElementDescription
  | [], _ => none
  | none :: rest, n => findElement rest n
  | some ed :: rest, n => if ed.name == n then some ed else findElement rest n

/-- Property lookup on one element description. -/
def getProp (ed : ElementDescription) (key : String) : Option PropVal :=
  match ed.properties with
  | none => none
  | some props => (props.find? fun kv => kv.1 == key).map fun kv => kv.2

/-- Property of the named element of a (possibly failed) description. -/
def findProp (obd : Option (List (Option ElementDescription)))
    (ename pname : String) : Option PropVal :=
  match obd with
  | none => none
  | some bd =>
      match findElement bd ename with
      | none => none
      | some ed => getProp ed pname

/-- Directions of a `Gst.Pad` (`unknown` models `Gst.PadDirection.UNKNOWN`). -/
inductive PadDirection
  | src
  | sink
  | unknown
deriving DecidableEq

/-- A `Gst.Pad` as far as this layer observes it: name, direction, link
state, and the string form of its queried caps. -/
structure Pad where
  name : String
  direction : PadDirection
  linked : Bool
  caps : String
deriving DecidableEq

/-- The exception classes raised by `mce/pipeline.py`. -/
inductive MceError
  | binAddError (msg : String)
  | elementCreationError (msg : String)
  | getPadError (msg : String)
  | linkError (msg : String)
deriving DecidableEq

/-- Embedding of `caps_start_with`:
`pad.query_caps().to_string().startswith(caps_str)`. -/
def caps_start_with (pad : Pad) (caps_str : String) : Bool :=
  caps_str.data.isPrefixOf pad.caps.data

/-- Embedding of `is_video_pad`. -/
def is_video_pad (pad : Pad) : Bool :=
  caps_start_with pad "video/x-raw"

/-- Outcomes of `Gst.Pad.link` (`refused` stands for the remaining enum
values reaching the final `else`). -/
inductive PadLinkReturn
  | ok
  | wrongHierarchy
  | wasLinked
  | noformat
  | refused
deriving DecidableEq

/-- Embedding of `_link_pads` given the framework result `ret` of
`a.link(b)`.  The leading `None`-check in the Python guards nullability
that the `Pad` type already rules out.  In the `WAS_LINKED` branch the
Python iterates over both pads and raises for the first one that
`is_linked()`; if neither is, it falls through and returns normally. -/
def link_pads (ret : PadLinkReturn) (a b : Pad) : Except MceError Unit :=
  match ret with
  | PadLinkReturn.ok => Except.ok ()
  | PadLinkReturn.wrongHierarchy =>
      Except.error (MceError.linkError
        ("could not link " ++ a.name ++ " to " ++ b.name ++
         " because you need to create ghost pads"))
  | PadLinkReturn.wasLinked =>
      if a.linked then
        Except.error (MceError.linkError (a.name ++ " is already linked"))
      else if b.linked then
        Except.error (MceError.linkError (b.name ++ " is already linked"))
      else Except.ok ()
  | PadLinkReturn.noformat =>
      Except.error (MceError.linkError
        ("could not link pads " ++ a.name ++ " and " ++ b.name ++
         " because caps are incompatible"))
  | PadLinkReturn.refused =>
      Except.error (MceError.linkError
        ("could not link " ++ a.name ++ " to " ++ b.name ++
         " because pad return: refused"))

/-- Argument type of `link`: a `Gst.Element` or a `Gst.Pad`. -/
inductive ElementOrPad
  | element (name : String)
  | pad (p : Pad)
deriving DecidableEq

/-- Decidable equality for `Except`, used so witness theorems can be
settled by `decide`. -/
instance instDecEqExcept {ε α : Type} [DecidableEq ε] [DecidableEq α] :
    DecidableEq (Except ε α)
  | Except.error e, Except.error f =>
      if h : e = f then Decidable.isTrue (congrArg Except.error h)
      else Decidable.isFalse (fun hc => h (Except.error.inj hc))
  | Except.error _, Except.ok _ => Decidable.isFalse (fun hc => Except.noConfusion hc)
  | Except.ok _, Except.error _ => Decidable.isFalse (fun hc => Except.noConfusion hc)
  | Except.ok a, Except.ok b =>
      if h : a = b then Decidable.isTrue (congrArg Except.ok h)
      else Decidable.isFalse (fun hc => h (Except.ok.inj hc))

/-- Framework outcomes consumed by one `link` call. -/
structure LinkEnv where
  elementLinkOk : Bool
  padLinkRet : PadLinkReturn
deriving DecidableEq

/-- What a `link` call did. -/
structure LinkResult where
  attemptedElementLink : Bool
  attemptedPadLink : Bool
  result : Except MceError Unit
deriving DecidableEq

/-- Embedding of `link`.  Both variants carry a `.name`, so the logging
`try`/`except AttributeError` never fires; then come the two
isinstance-guarded branches.  A mixed Element/Pad argument pair matches
neither branch and falls through to a plain `return`. -/
def link (env : LinkEnv) (a b : ElementOrPad) : LinkResult :=
  match a, b with
  | ElementOrPad.element an, ElementOrPad.element bn =>
      { attemptedElementLink := true, attemptedPadLink := false,
        result :=
          if env.elementLinkOk then Except.ok ()
          else Except.error (MceError.linkError
            ("could not link " ++ an ++ " to " ++ bn)) }
  | ElementOrPad.pad pa, ElementOrPad.pad pb =>
      { attemptedElementLink := false, attemptedPadLink := true,
        result := link_pads env.padLinkRet pa pb }
  | _, _ =>
      { attemptedElementLink := false, attemptedPadLink := false,
        result := Except.ok () }

/-- Embedding of `GhostBin._outer_pad_count`: one counter per direction
(the dict is created in `__init__` with exactly the SRC and SINK keys,
both zero). -/
structure GhostBinState where
  srcCount : Nat
  sinkCount : Nat
deriving DecidableEq

/-- Counter state right after `GhostBin.__init__`. -/
def GhostBinState.start : GhostBinState := { srcCount := 0, sinkCount := 0 }

/-- Framework outcomes consumed by one `make_ghost` call. -/
structure GhostEnv where
  foundUnlinked : Option Pad
  ghostNewOk : Bool
  addPadOk : Bool
deriving DecidableEq

/-- Tail of `make_ghost` once the outer name is chosen:
`Gst.GhostPad.new` (counter incremented exactly when it returns a pad),
`set_active`, `add_pad`. `bump` selects which per-direction counter the
Python `self._outer_pad_count[direction] += 1` touches. -/
def make_ghost_finish (env : GhostEnv) (outer_name : String) (inner_pad : Pad)
    (bump : GhostBinState → GhostBinState) (st : GhostBinState) :
    GhostBinState × Except MceError String :=
  if env.ghostNewOk then
    let st1 := bump st
    if env.addPadOk then (st1, Except.ok outer_name)
    else (st1, Except.error (MceError.binAddError
      ("could not add pad " ++ outer_name)))
  else
    (st, Except.error (MceError.getPadError
      ("could not create outer ghost pad " ++ outer_name ++
       " for inner pad " ++ inner_pad.name)))

/-- Middle of `make_ghost` after the inner pad and direction are
resolved: the `if`/`elif`/`else` choosing the outer name by direction. -/
def make_ghost_add (env : GhostEnv) (direction : PadDirection) (inner_pad : Pad)
    (st : GhostBinState) : GhostBinState × Except MceError String :=
  if direction = PadDirection.src then
    make_ghost_finish env ("src_" ++ toString st.srcCount) inner_pad
      (fun s => { s with srcCount := s.srcCount + 1 }) st
  else if direction = PadDirection.sink then
    make_ghost_finish env ("sink_" ++ toString st.sinkCount) inner_pad
      (fun s => { s with sinkCount := s.sinkCount + 1 }) st
  else
    (st, Except.error (MceError.getPadError "invalid pad direction requested"))

/-- Embedding of `GhostBin.make_ghost`.  When a caller-supplied
`inner_pad` is present, its direction overrides the `direction` argument
and a linked pad is rejected; when only a direction is given,
`find_unlinked_pad` (the `foundUnlinked` field of the environment)
supplies the inner pad. -/
def make_ghost (env : GhostEnv) (direction : Option PadDirection)
    (inner_pad : Option Pad) (st : GhostBinState) :
    GhostBinState × Except MceError String :=
  match inner_pad, direction with
  | none, none =>
      (st, Except.error (MceError.binAddError
        "need inner pad or direction to add ghost pad"))
  | some p, _ =>
      if p.linked then
        (st, Except.error (MceError.linkError
          ("pad " ++ p.name ++ " is already linked")))
      else make_ghost_add env p.direction p st
  | none, some d =>
      match env.foundUnlinked with
      | none =>
          (st, Except.error (MceError.getPadError
            "Unlinked pad not found. Perhaps request one?"))
      | some p => make_ghost_add env d p st

/-- The `InferenceBin` counters (`_pad_counter`, `_source_counter`) plus
the inherited `GhostBin` counter state. -/
structure InferenceBinState where
  ghost : GhostBinState
  pad_counter : Nat
  source_counter : Nat
deriving DecidableEq

/-- Framework outcomes consumed by one `get_sink_pad` / `link_source`
call. `unlinkedSinkOnMuxer` is the result of `find_unlinked_pad(SINK)`
when the found pad belongs to the stream muxer (otherwise the code falls
back to requesting a pad). -/
structure LinkSourceEnv where
  unlinkedSinkOnMuxer : Option Pad
  requestPadOk : Bool
  ghostNewOk : Bool
  addPadOk : Bool
  padLinkRet : PadLinkReturn
deriving DecidableEq

/-- Embedding of `InferenceBin.get_sink_pad`: find or request an inner
muxer sink pad, bump `_pad_counter` exactly when one was obtained, then
ghost it via `make_ghost(inner_pad=...)`. -/
def get_sink_pad (env : LinkSourceEnv) (st : InferenceBinState) :
    InferenceBinState × Except MceError Pad :=
  let found : Option Pad :=
    match env.unlinkedSinkOnMuxer with
    | some p => some p
    | none =>
        if env.requestPadOk then
          some { name := "sink_" ++ toString st.pad_counter,
                 direction := PadDirection.sink, linked := false, caps := "" }
        else none
  match found with
  | none =>
      (st, Except.error (MceError.getPadError
        "Could not find or request sink pad from muxer"))
  | some inner =>
      let st1 := { st with pad_counter := st.pad_counter + 1 }
      let gres := make_ghost
        { foundUnlinked := none, ghostNewOk := env.ghostNewOk,
          addPadOk := env.addPadOk } none (some inner) st1.ghost
      ({ st1 with ghost := gres.1 },
       match gres.2 with
       | Except.error e => Except.error e
       | Except.ok outer_name =>
           Except.ok { name := outer_name, direction := inner.direction,
                       linked := false, caps := inner.caps })

/-- What a `link_source` call did. -/
structure LinkSourceResult where
  state : InferenceBinState
  result : Except MceError Unit
  linkerInvoked : Bool
  sinkAcquisitionAttempted : Bool
deriving DecidableEq

/-- Embedding of the `try` block of `InferenceBin.link_source` together
with its `except` handler: `get_sink_pad` then `link`; on either raising,
the handler decrements `source_counter` back and re-raises.  `st1` is the
state after the optimistic increment. -/
def link_source_try (env : LinkSourceEnv) (src_pad : Pad)
    (st1 : InferenceBinState) : LinkSourceResult :=
  match get_sink_pad env st1 with
  | (st2, Except.error e) =>
      { state := { st2 with source_counter := st2.source_counter - 1 },
        result := Except.error e,
        linkerInvoked := false, sinkAcquisitionAttempted := true }
  | (st2, Except.ok sink_pad) =>
      match (link { elementLinkOk := true, padLinkRet := env.padLinkRet }
          (ElementOrPad.pad src_pad) (ElementOrPad.pad sink_pad)).result with
      | Except.ok _ =>
          { state := st2, result := Except.ok (),
            linkerInvoked := true, sinkAcquisitionAttempted := true }
      | Except.error e =>
          { state := { st2 with source_counter := st2.source_counter - 1 },
            result := Except.error e,
            linkerInvoked := true, sinkAcquisitionAttempted := true }

/-- Embedding of `InferenceBin.link_source`: early return on a non-video
pad; otherwise optimistic `source_counter` increment, then the `try`
block. -/
def link_source (env : LinkSourceEnv) (src_pad : Pad) (st : InferenceBinState) :
    LinkSourceResult :=
  if !(is_video_pad src_pad) then
    { state := st, result := Except.ok (),
      linkerInvoked := false, sinkAcquisitionAttempted := false }
  else
    link_source_try env src_pad { st with source_counter := st.source_counter + 1 }

/-- The lifecycle states used by `StateSetter`. -/
inductive GstState
  | null
  | ready
  | paused
  | playing
deriving DecidableEq

/-- Outcomes of the framework `Gst.Element.set_state` call. -/
inductive StateChangeReturn
  | failure
  | success
  | async
  | noPreroll
deriving DecidableEq

/-- Observable effects of one `StateSetter.set_state` call: whether the
blocking `self.get_state(timeout)` wait ran, whether the failure branch
logged, and the value returned to the caller. -/
structure SetStateEffects where
  waited : Bool
  loggedFailure : Bool
  returned : StateChangeReturn
deriving DecidableEq

/-- Embedding of the control flow of `StateSetter.set_state` after the
framework call returned `ret`:
`if not ret == Gst.StateChangeReturn.ASYNC: if not async_: self.get_state(timeout)`
`elif ret == Gst.StateChangeReturn.FAILURE: logger.error(...)`
and finally `return ret`. -/
def set_state_effects (ret : StateChangeReturn) (async_ : Bool) : SetStateEffects :=
  if ¬ ret = StateChangeReturn.async then
    { waited := !async_, loggedFailure := false, returned := ret }
  else if ret = StateChangeReturn.failure then
    { waited := false, loggedFailure := true, returned := ret }
  else
    { waited := false, loggedFailure := false, returned := ret }

/-- Names of the attributes a `DeepStreamApp` instance carries: the class
attributes and the assignments in `DeepStreamApp.__init__`
(`StateSetter` itself assigns none). No attribute named `loop` is ever
assigned anywhere in the repository. -/
def deepStreamAppAttrs : List String :=
  ["_muxer", "_inference_bin", "_source_counter",
   "_pie_config", "_uris", "_loop", "_bus_cb", "_on_buffer"]

/-- State observed by `StateSetter.quit`: the lifecycle state, the
instance attribute names (for `hasattr`), and whether the `GLib.MainLoop`
stored at `_loop` is running. -/
structure PipelineState where
  gstState : GstState
  attrs : List String
  loopRunning : Bool
deriving DecidableEq

/-- Embedding of `StateSetter.quit`: `self.null(**kwargs)` then
`if loop_also and hasattr(self, ...) and self._loop.is_running(): self._loop.quit()`.
Note the `hasattr` probes the attribute name `loop` (in quotes), not `_loop`. -/
def quit (loop_also : Bool) (st : PipelineState) : PipelineState :=
  let st1 := { st with gstState := GstState.null }
  if loop_also && st1.attrs.contains "loop" && st1.loopRunning then
    { st1 with loopRunning := false }
  else st1

/-- Embedding of `mce.DEBUG`. -/
def DEBUG : Bool := true

/-- The message kinds distinguished by `mce.bus.on_message` (`other`
stands for every kind reaching the final `else`). -/
inductive MessageType
  | tag
  | durationChanged
  | streamStatus
  | stateChanged
  | eos
  | error
  | warning
  | other
deriving DecidableEq

/-- Observable effects of one `on_message` call: whether `app.quit()` was
called, which log levels were written, and the returned bool. -/
structure BusResult where
  quitCalled : Bool
  loggedError : Bool
  loggedWarning : Bool
  loggedDebug : Bool
  keepWatching : Bool
deriving DecidableEq

/-- Embedding of the `if`/`elif` dispatch of `mce.bus.on_message`: TAG and
DURATION_CHANGED pass, STREAM_STATUS and STATE_CHANGED debug-log, EOS
debug-logs and quits, ERROR error-logs and quits, WARNING warning-logs,
anything else debug-logs when `mce.DEBUG`; `return True` at the end of
every path. -/
def on_message (message : MessageType) : BusResult :=
  match message with
  | MessageType.tag =>
      { quitCalled := false, loggedError := false, loggedWarning := false,
        loggedDebug := false, keepWatching := true }
  | MessageType.durationChanged =>
      { quitCalled := false, loggedError := false, loggedWarning := false,
        loggedDebug := false, keepWatching := true }
  | MessageType.streamStatus =>
      { quitCalled := false, loggedError := false, loggedWarning := false,
        loggedDebug := true, keepWatching := true }
  | MessageType.stateChanged =>
      { quitCalled := false, loggedError := false, loggedWarning := false,
        loggedDebug := true, keepWatching := true }
  | MessageType.eos =>
      { quitCalled := true, loggedError := false, loggedWarning := false,
        loggedDebug := true, keepWatching := true }
  | MessageType.error =>
      { quitCalled := true, loggedError := true, loggedWarning := false,
        loggedDebug := false, keepWatching := true }
  | MessageType.warning =>
      { quitCalled := false, loggedError := false, loggedWarning := true,
        loggedDebug := false, keepWatching := true }
  | MessageType.other =>
      { quitCalled := false, loggedError := false, loggedWarning := false,
        loggedDebug := DEBUG, keepWatching := true }

/-! Helper lemmas about the ceiling square root. -/

theorem ceilSqrtAux_spec (n : Nat) :
    ∀ fuel k, n ≤ (k + fuel) * (k + fuel) →
      n ≤ ceilSqrtAux n fuel k * ceilSqrtAux n fuel k := by
  intro fuel
  induction fuel with
  | zero =>
      intro k h
      simpa [ceilSqrtAux] using h
  | succ f ih =>
      intro k h
      simp only [ceilSqrtAux]
      split
      · assumption
      · refine ih (k + 1) ?_
        have he : k + 1 + f = k + (f + 1) := by omega
        rw [he]
        exact h

theorem ceilSqrtAux_le (n : Nat) :
    ∀ fuel k j, k ≤ j → j ≤ k + fuel → n ≤ j * j → ceilSqrtAux n fuel k ≤ j := by
  intro fuel
  induction fuel with
  | zero =>
      intro k j h1 _ _
      simpa [ceilSqrtAux] using h1
  | succ f ih =>
      intro k j h1 h2 h3
      simp only [ceilSqrtAux]
      split
      · exact h1
      · next hk =>
        have hkj : k + 1 ≤ j := by
          by_contra hc
          push_neg at hc
          have hjk : j = k := by omega
          subst hjk
          exact hk h3
        exact ih (k + 1) j hkj (by omega) h3

theorem le_mul_self (n : Nat) : n ≤ n * n := by
  cases n with
  | zero => simp
  | succ m => exact Nat.le_mul_of_pos_left (m + 1) (by omega)

theorem ceilSqrt_spec (n : Nat) : n ≤ ceilSqrt n * ceilSqrt n := by
  have h : n ≤ (0 + n) * (0 + n) := by simpa using le_mul_self n
  exact ceilSqrtAux_spec n n 0 h

theorem ceilSqrt_least (n k : Nat) (hk : n ≤ k * k) : ceilSqrt n ≤ k := by
  unfold ceilSqrt
  rcases le_or_lt k n with h | h
  · exact ceilSqrtAux_le n n 0 k (Nat.zero_le k) (by omega) hk
  · have hres : ceilSqrtAux n n 0 ≤ n :=
      ceilSqrtAux_le n n 0 n (Nat.zero_le n) (by omega) (le_mul_self n)
    omega

theorem ceilSqrt_pos (n : Nat) (h : 1 ≤ n) : 1 ≤ ceilSqrt n := by
  by_contra hc
  push_neg at hc
  have h0 : ceilSqrt n = 0 := by omega
  have hspec := ceilSqrt_spec n
  rw [h0] at hspec
  omega

theorem ceilSqrt_lower (n : Nat) (h : 1 ≤ n) :
    (ceilSqrt n - 1) * (ceilSqrt n - 1) < n := by
  by_contra hc
  push_neg at hc
  have hle := ceilSqrt_least n (ceilSqrt n - 1) hc
  have hpos := ceilSqrt_pos n h
  omega

theorem calc_rows_and_columns_pos (n : Nat) : 0 < calc_rows_and_columns n := by
  unfold calc_rows_and_columns
  split
  · omega
  · next hne => exact ceilSqrt_pos n (by omega)

theorem calc_rows_and_columns_eq_ceilSqrt (n : Nat) (h : 1 ≤ n) :
    calc_rows_and_columns n = ceilSqrt n := by
  unfold calc_rows_and_columns
  split
  · omega
  · rfl

theorem calc_in_scale_eval (os : Nat × Nat) (rc : Nat) (h : rc ≠ 0) :
    calc_in_scale os rc = some (os.1 / rc, os.2 / rc) := by
  unfold calc_in_scale
  rw [if_neg h]

/-- C10: for every `num_sources ≥ 0` (any `Nat`), `calc_rows_and_columns`
returns a positive integer — in particular `1` when `num_sources = 0` —
so the integer divisions in `calc_in_scale` never divide by zero and
building an inference description for zero sources is total, yielding a
1-by-1 tile grid. -/
theorem c10_rows_positive_total (n : Nat) (cfg sink : String) (os : Nat × Nat)
    (j x : Bool) :
    0 < calc_rows_and_columns n
    ∧ calc_rows_and_columns 0 = 1
    ∧ (calc_in_scale os (calc_rows_and_columns n)).isSome = true
    ∧ (make_inference_description cfg sink 0 os j x).isSome = true
    ∧ findProp (make_inference_description cfg sink 0 os j x) "tiler" "rows"
        = some (PropVal.int 1)
    ∧ findProp (make_inference_description cfg sink 0 os j x) "tiler" "columns"
        = some (PropVal.int 1) := by
  have hpos := calc_rows_and_columns_pos n
  refine ⟨hpos, rfl, ?_, rfl, rfl, rfl⟩
  rw [calc_in_scale_eval os _ (by omega)]
  rfl

/-- C1 (amended): for every `N ≥ 1`, the inference subgraph description
sets the `rows` property of the tiler to `ceil(sqrt N)` and its `columns`
property also to `ceil(sqrt N)` (equal to `rows`, not to
`ceil(N / rows)` as the claim stated), and sets the `batch-size`
property of both the stream muxer and the inference element to `N`.
The two arithmetic conjuncts pin `ceilSqrt N` as the actual ceiling of
the square root. -/
theorem c1_inference_geometry (cfg sink : String) (n : Nat) (os : Nat × Nat)
    (j x : Bool) (h : 1 ≤ n) :
    findProp (make_inference_description cfg sink n os j x) "tiler" "rows"
      = some (PropVal.int (ceilSqrt n))
    ∧ findProp (make_inference_description cfg sink n os j x) "tiler" "columns"
      = some (PropVal.int (ceilSqrt n))
    ∧ n ≤ ceilSqrt n * ceilSqrt n
    ∧ (ceilSqrt n - 1) * (ceilSqrt n - 1) < n
    ∧ findProp (make_inference_description cfg sink n os j x) "stream-muxer" "batch-size"
      = some (PropVal.int n)
    ∧ findProp (make_inference_description cfg sink n os j x) "pie" "batch-size"
      = some (PropVal.int n) := by
  have hpos := calc_rows_and_columns_pos n
  have hrc := calc_rows_and_columns_eq_ceilSqrt n h
  have hne : ceilSqrt n ≠ 0 := by
    rw [← hrc]
    omega
  have hcis := calc_in_scale_eval os (ceilSqrt n) hne
  refine ⟨?_, ?_, ceilSqrt_spec n, ceilSqrt_lower n h, ?_, ?_⟩
  all_goals simp only [make_inference_description, hrc, hcis]
  all_goals rfl

/-- C1 witness: the amended geometry fact evaluated at two sources. -/
theorem c1_inference_geometry_witness :
    (1 : Nat) ≤ 2
    ∧ (findProp (make_inference_description "pie.conf" "nvoverlaysink" 2 (1920, 1080) false false)
          "tiler" "rows" = some (PropVal.int (ceilSqrt 2))
      ∧ findProp (make_inference_description "pie.conf" "nvoverlaysink" 2 (1920, 1080) false false)
          "tiler" "columns" = some (PropVal.int (ceilSqrt 2))
      ∧ 2 ≤ ceilSqrt 2 * ceilSqrt 2
      ∧ (ceilSqrt 2 - 1) * (ceilSqrt 2 - 1) < 2
      ∧ findProp (make_inference_description "pie.conf" "nvoverlaysink" 2 (1920, 1080) false false)
          "stream-muxer" "batch-size" = some (PropVal.int 2)
      ∧ findProp (make_inference_description "pie.conf" "nvoverlaysink" 2 (1920, 1080) false false)
          "pie" "batch-size" = some (PropVal.int 2)) :=
  ⟨by decide,
   c1_inference_geometry "pie.conf" "nvoverlaysink" 2 (1920, 1080) false false (by decide)⟩

/-- C1 counterexample: at `N = 2` the code sets `rows = 2` and
`columns = 2`, while the claimed `columns = ceil(N / rows) = ceil(2 / 2)`
would be `1`. -/
theorem c1_columns_counterexample :
    findProp (make_inference_description "pie.conf" "nvoverlaysink" 2 (1920, 1080) false false)
        "tiler" "rows" = some (PropVal.int 2)
    ∧ ((2 + 2 - 1) / 2 : Nat) = 1
    ∧ findProp (make_inference_description "pie.conf" "nvoverlaysink" 2 (1920, 1080) false false)
        "tiler" "columns" ≠ some (PropVal.int 1) := by
  refine ⟨by decide, by decide, by decide⟩

/-! Helper lemmas about make_ghost and get_sink_pad. -/

theorem make_ghost_add_counts_mono (env : GhostEnv) (d : PadDirection) (p : Pad)
    (s : GhostBinState) :
    s.srcCount ≤ (make_ghost_add env d p s).1.srcCount
    ∧ s.sinkCount ≤ (make_ghost_add env d p s).1.sinkCount := by
  unfold make_ghost_add make_ghost_finish
  cases d <;> cases hg : env.ghostNewOk <;> cases ha : env.addPadOk <;>
    simp [hg, ha]

theorem make_ghost_counts_mono (env : GhostEnv) (d : Option PadDirection)
    (ip : Option Pad) (s : GhostBinState) :
    s.srcCount ≤ (make_ghost env d ip s).1.srcCount
    ∧ s.sinkCount ≤ (make_ghost env d ip s).1.sinkCount := by
  unfold make_ghost
  cases ip with
  | some p =>
      cases hl : p.linked
      · simpa [hl] using make_ghost_add_counts_mono env p.direction p s
      · simp [hl]
  | none =>
      cases d with
      | none => simp
      | some dd =>
          cases hfu : env.foundUnlinked with
          | none => simp [hfu]
          | some p => simpa [hfu] using make_ghost_add_counts_mono env dd p s

theorem make_ghost_src_ok (env : GhostEnv) (s s2 : GhostBinState) (nm : String)
    (h : make_ghost env (some PadDirection.src) none s = (s2, Except.ok nm)) :
    nm = "src_" ++ toString s.srcCount
    ∧ s2 = { s with srcCount := s.srcCount + 1 } := by
  unfold make_ghost at h
  cases hfu : env.foundUnlinked with
  | none =>
      rw [hfu] at h
      simp at h
  | some p =>
      rw [hfu] at h
      unfold make_ghost_add make_ghost_finish at h
      cases hg : env.ghostNewOk <;> rw [hg] at h <;>
        cases ha : env.addPadOk <;> simp [ha] at h
      exact ⟨h.2.symm, h.1.symm⟩

theorem get_sink_pad_source_counter (env : LinkSourceEnv) (st : InferenceBinState) :
    (get_sink_pad env st).1.source_counter = st.source_counter := by
  unfold get_sink_pad
  cases hums : env.unlinkedSinkOnMuxer with
  | some p => simp [hums]
  | none =>
      cases hreq : env.requestPadOk <;> simp [hums, hreq]

theorem link_source_try_err (env : LinkSourceEnv) (src_pad : Pad)
    (s : InferenceBinState) (e : MceError)
    (h : (link_source_try env src_pad s).result = Except.error e) :
    (link_source_try env src_pad s).state.source_counter = s.source_counter - 1 := by
  have hgs := get_sink_pad_source_counter env s
  rcases hpair : get_sink_pad env s with ⟨st2, r2⟩
  rw [hpair] at hgs
  simp only at hgs
  unfold link_source_try at h ⊢
  rw [hpair] at h ⊢
  cases r2 with
  | error e2 =>
      simp
      omega
  | ok sp =>
      cases hl : (link { elementLinkOk := true, padLinkRet := env.padLinkRet }
          (ElementOrPad.pad src_pad) (ElementOrPad.pad sp)).result with
      | ok u => simp [hl] at h
      | error e3 =>
          simp [hl]
          omega

/-- C3: whenever a `link_source` call fails — the error `e` raised during
sink-pad acquisition or linking propagates to the caller — the
attached-source counter is restored to its pre-call value. -/
theorem c3_link_source_rollback (env : LinkSourceEnv) (src_pad : Pad)
    (st : InferenceBinState) (e : MceError)
    (herr : (link_source env src_pad st).result = Except.error e) :
    (link_source env src_pad st).state.source_counter = st.source_counter := by
  unfold link_source at herr ⊢
  rcases Bool.eq_false_or_eq_true (is_video_pad src_pad) with hv | hv
  · rw [hv] at herr ⊢
    simp only [Bool.not_true, Bool.false_eq_true, if_false] at herr ⊢
    rw [link_source_try_err env src_pad
      { st with source_counter := st.source_counter + 1 } e herr]
    simp
  · rw [hv] at herr
    simp at herr

/-- C3 witness: from a counter of 2, a third attach whose pad link fails
format negotiation (NOFORMAT) propagates a link error and leaves the
counter at 2. -/
theorem c3_link_source_rollback_witness :
    (link_source
        { unlinkedSinkOnMuxer := none, requestPadOk := true, ghostNewOk := true,
          addPadOk := true, padLinkRet := PadLinkReturn.noformat }
        { name := "src_2", direction := PadDirection.src, linked := false,
          caps := "video/x-raw(memory:NVMM), format=NV12" }
        { ghost := GhostBinState.start, pad_counter := 2, source_counter := 2 }).result
      = Except.error (MceError.linkError
          ("could not link pads src_2 and sink_0 because caps are incompatible"))
    ∧ (link_source
        { unlinkedSinkOnMuxer := none, requestPadOk := true, ghostNewOk := true,
          addPadOk := true, padLinkRet := PadLinkReturn.noformat }
        { name := "src_2", direction := PadDirection.src, linked := false,
          caps := "video/x-raw(memory:NVMM), format=NV12" }
        { ghost := GhostBinState.start, pad_counter := 2, source_counter := 2 }).state.source_counter
      = 2 :=
  ⟨by decide,
   c3_link_source_rollback
     { unlinkedSinkOnMuxer := none, requestPadOk := true, ghostNewOk := true,
       addPadOk := true, padLinkRet := PadLinkReturn.noformat }
     { name := "src_2", direction := PadDirection.src, linked := false,
       caps := "video/x-raw(memory:NVMM), format=NV12" }
     { ghost := GhostBinState.start, pad_counter := 2, source_counter := 2 }
     (MceError.linkError "could not link pads src_2 and sink_0 because caps are incompatible")
     (by decide)⟩

/-- C8: a `link_source` call for a pad whose negotiated caps are not
video returns normally with the whole state unchanged, never acquiring a
sink pad and never invoking the linker. -/
theorem c8_nonvideo_noop (env : LinkSourceEnv) (src_pad : Pad)
    (st : InferenceBinState) (h : is_video_pad src_pad = false) :
    link_source env src_pad st
      = { state := st, result := Except.ok (), linkerInvoked := false,
          sinkAcquisitionAttempted := false } := by
  unfold link_source
  rw [h]
  rfl

/-- C8 witness: an audio pad is ignored with no state change. -/
theorem c8_nonvideo_noop_witness :
    is_video_pad { name := "audio_0", direction := PadDirection.src,
                   linked := false, caps := "audio/x-raw, format=S16LE" } = false
    ∧ link_source
        { unlinkedSinkOnMuxer := none, requestPadOk := true, ghostNewOk := true,
          addPadOk := true, padLinkRet := PadLinkReturn.ok }
        { name := "audio_0", direction := PadDirection.src,
          linked := false, caps := "audio/x-raw, format=S16LE" }
        { ghost := GhostBinState.start, pad_counter := 1, source_counter := 1 }
      = { state := { ghost := GhostBinState.start, pad_counter := 1, source_counter := 1 },
          result := Except.ok (), linkerInvoked := false,
          sinkAcquisitionAttempted := false } :=
  ⟨by decide,
   c8_nonvideo_noop
     { unlinkedSinkOnMuxer := none, requestPadOk := true, ghostNewOk := true,
       addPadOk := true, padLinkRet := PadLinkReturn.ok }
     { name := "audio_0", direction := PadDirection.src,
       linked := false, caps := "audio/x-raw, format=S16LE" }
     { ghost := GhostBinState.start, pad_counter := 1, source_counter := 1 }
     (by decide)⟩

/-- C6: `make_ghost` with a caller-supplied inner pad that is already
linked fails with the "already linked" `LinkError` and leaves the
per-direction ghost-pad counters unchanged. -/
theorem c6_make_ghost_already_linked (env : GhostEnv) (d : Option PadDirection)
    (p : Pad) (st : GhostBinState) (h : p.linked = true) :
    make_ghost env d (some p) st
      = (st, Except.error (MceError.linkError
          ("pad " ++ p.name ++ " is already linked"))) := by
  unfold make_ghost
  cases d <;> simp [h]

/-- C6 witness: ghosting a linked pad fails and keeps both counters. -/
theorem c6_make_ghost_already_linked_witness :
    ({ name := "mux_sink_0", direction := PadDirection.sink, linked := true,
       caps := "" } : Pad).linked = true
    ∧ make_ghost { foundUnlinked := none, ghostNewOk := true, addPadOk := true }
        none
        (some { name := "mux_sink_0", direction := PadDirection.sink, linked := true,
                caps := "" })
        { srcCount := 3, sinkCount := 4 }
      = ({ srcCount := 3, sinkCount := 4 },
         Except.error (MceError.linkError "pad mux_sink_0 is already linked")) :=
  ⟨by decide,
   c6_make_ghost_already_linked
     { foundUnlinked := none, ghostNewOk := true, addPadOk := true }
     none
     { name := "mux_sink_0", direction := PadDirection.sink, linked := true, caps := "" }
     { srcCount := 3, sinkCount := 4 }
     (by decide)⟩

/-- C7: two consecutive successful `make_ghost` calls in the source
direction name their external pads `src_<c>` and `src_<c+1>` from the
current counter `c` (so `src_0` then `src_1` on a fresh composite), the
counter strictly increases across them, and no `make_ghost` call — the
only operation that writes the counters — ever decreases either
per-direction counter (the arguments of the third call are arbitrary). -/
theorem c7_ghost_names_monotone (env₁ env₂ env₃ : GhostEnv)
    (st st₁ st₂ : GhostBinState) (n₁ n₂ : String)
    (d₃ : Option PadDirection) (ip₃ : Option Pad) (s₃ : GhostBinState)
    (h₁ : make_ghost env₁ (some PadDirection.src) none st = (st₁, Except.ok n₁))
    (h₂ : make_ghost env₂ (some PadDirection.src) none st₁ = (st₂, Except.ok n₂)) :
    n₁ = "src_" ++ toString st.srcCount
    ∧ n₂ = "src_" ++ toString (st.srcCount + 1)
    ∧ st₁.srcCount = st.srcCount + 1
    ∧ st₂.srcCount = st.srcCount + 2
    ∧ s₃.srcCount ≤ (make_ghost env₃ d₃ ip₃ s₃).1.srcCount
    ∧ s₃.sinkCount ≤ (make_ghost env₃ d₃ ip₃ s₃).1.sinkCount := by
  obtain ⟨hn₁, hs₁⟩ := make_ghost_src_ok env₁ st st₁ n₁ h₁
  obtain ⟨hn₂, hs₂⟩ := make_ghost_src_ok env₂ st₁ st₂ n₂ h₂
  obtain ⟨hm₁, hm₂⟩ := make_ghost_counts_mono env₃ d₃ ip₃ s₃
  subst hs₁
  subst hs₂
  exact ⟨hn₁, by simpa using hn₂, rfl, rfl, hm₁, hm₂⟩

/-- C7 witness: a fresh composite yields `src_0` then `src_1`, and an
arbitrary failing call does not decrease the counters. -/
theorem c7_ghost_names_monotone_witness :
    make_ghost { foundUnlinked := some { name := "tee_src", direction := PadDirection.src,
                                         linked := false, caps := "" },
                 ghostNewOk := true, addPadOk := true }
        (some PadDirection.src) none GhostBinState.start
      = ({ srcCount := 1, sinkCount := 0 }, Except.ok "src_0")
    ∧ make_ghost { foundUnlinked := some { name := "tee_src", direction := PadDirection.src,
                                           linked := false, caps := "" },
                   ghostNewOk := true, addPadOk := true }
        (some PadDirection.src) none { srcCount := 1, sinkCount := 0 }
      = ({ srcCount := 2, sinkCount := 0 }, Except.ok "src_1")
    ∧ ("src_0" = "src_" ++ toString GhostBinState.start.srcCount
       ∧ "src_1" = "src_" ++ toString (GhostBinState.start.srcCount + 1)
       ∧ ({ srcCount := 1, sinkCount := 0 } : GhostBinState).srcCount
           = GhostBinState.start.srcCount + 1
       ∧ ({ srcCount := 2, sinkCount := 0 } : GhostBinState).srcCount
           = GhostBinState.start.srcCount + 2
       ∧ ({ srcCount := 5, sinkCount := 7 } : GhostBinState).srcCount
           ≤ (make_ghost { foundUnlinked := none, ghostNewOk := false, addPadOk := false }
               none (some { name := "q_sink", direction := PadDirection.sink,
                            linked := true, caps := "" })
               { srcCount := 5, sinkCount := 7 }).1.srcCount
       ∧ ({ srcCount := 5, sinkCount := 7 } : GhostBinState).sinkCount
           ≤ (make_ghost { foundUnlinked := none, ghostNewOk := false, addPadOk := false }
               none (some { name := "q_sink", direction := PadDirection.sink,
                            linked := true, caps := "" })
               { srcCount := 5, sinkCount := 7 }).1.sinkCount) :=
  ⟨by decide, by decide,
   c7_ghost_names_monotone
     { foundUnlinked := some { name := "tee_src", direction := PadDirection.src,
                               linked := false, caps := "" },
       ghostNewOk := true, addPadOk := true }
     { foundUnlinked := some { name := "tee_src", direction := PadDirection.src,
                               linked := false, caps := "" },
       ghostNewOk := true, addPadOk := true }
     { foundUnlinked := none, ghostNewOk := false, addPadOk := false }
     GhostBinState.start { srcCount := 1, sinkCount := 0 } { srcCount := 2, sinkCount := 0 }
     "src_0" "src_1" none
     (some { name := "q_sink", direction := PadDirection.sink, linked := true, caps := "" })
     { srcCount := 5, sinkCount := 7 }
     (by decide) (by decide)⟩

/-- C9: a mixed argument pair — one `Gst.Element`, one `Gst.Pad`, in
either order — makes `link` return normally without attempting any link
and without raising, even though its contract is link-or-raise. -/
theorem c9_link_mixed_silent (env : LinkEnv) (ename : String) (p : Pad) :
    link env (ElementOrPad.element ename) (ElementOrPad.pad p)
      = { attemptedElementLink := false, attemptedPadLink := false,
          result := Except.ok () }
    ∧ link env (ElementOrPad.pad p) (ElementOrPad.element ename)
      = { attemptedElementLink := false, attemptedPadLink := false,
          result := Except.ok () } :=
  ⟨rfl, rfl⟩

/-- C2 (code-bug evidence): with `async_ = False` and the framework
reporting the transition pending (`ASYNC`), `set_state` skips the
blocking `get_state` wait entirely — the condition `if not ret == ASYNC`
is inverted, so it waits exactly when there is nothing to wait for — and
the `elif ret == FAILURE` logging branch is unreachable for every return
value and flag. -/
theorem c2_set_state_bug :
    (set_state_effects StateChangeReturn.async false).waited = false
    ∧ (set_state_effects StateChangeReturn.success false).waited = true
    ∧ (∀ r a, (set_state_effects r a).loggedFailure = false) := by
  refine ⟨rfl, rfl, ?_⟩
  intro r a
  cases r <;> cases a <;> rfl

/-- C4 (code-bug evidence): `quit` on a `DeepStreamApp` whose `_loop` is
running moves the pipeline to Null but leaves the loop running, because
the code probes `hasattr` for the name `loop` while the attribute is named
`_loop`; the second call is indeed a safe no-op. -/
theorem c4_quit_leaves_loop_running :
    (quit true { gstState := GstState.playing, attrs := deepStreamAppAttrs,
                 loopRunning := true }).gstState = GstState.null
    ∧ (quit true { gstState := GstState.playing, attrs := deepStreamAppAttrs,
                   loopRunning := true }).loopRunning = true
    ∧ quit true (quit true { gstState := GstState.playing, attrs := deepStreamAppAttrs,
                             loopRunning := true })
        = quit true { gstState := GstState.playing, attrs := deepStreamAppAttrs,
                      loopRunning := true } := by
  refine ⟨by decide, by decide, by decide⟩

/-- C5: the bus dispatcher keeps watching for every message kind, quits
exactly on end-of-stream and on error, error-logs exactly on error, and
warning-logs exactly on warning — every other kind at most debug-logs
and causes no quit. -/
theorem c5_on_message_dispatch :
    ∀ m : MessageType,
      (on_message m).keepWatching = true
      ∧ ((on_message m).quitCalled = true
          ↔ (m = MessageType.eos ∨ m = MessageType.error))
      ∧ ((on_message m).loggedError = true ↔ m = MessageType.error)
      ∧ ((on_message m).loggedWarning = true ↔ m = MessageType.warning) := by
  intro m
  cases m <;> simp [on_message, DEBUG]

end Mce
